import Mathlib

/-!
# Verification of the attendance-tracker backend

Shallow embedding of the Express/Mongoose backend in `server/index.js` of the
attendance app.  Mongo collections become Lean lists of structures; each HTTP
handler becomes a pure function from the database state (plus the decoded JWT
payload and the values the handler draws from the environment: clock, fresh
ObjectIds, the output of the random join-code generator) to the new state and
an HTTP response.  Error responses carry the literal status code and message
the handler sends.  External collaborators (bcrypt, the JWT library) are
modelled by their contracts: bcrypt as an injective hash placeholder, the JWT
middleware by handing every handler an already-verified token payload
`{ id, role }`.
-/

namespace Attendance

/-- HTTP result of a handler: `ok` with the JSON payload, or `err status message`
with the literal status code and `message` field the handler sends. -/
inductive ApiResult (α : Type) where
  | ok : α → ApiResult α
  | err : Nat → String → ApiResult α
deriving Repr, DecidableEq

/-- JWT payload attached by the `authenticateToken` middleware (`req.user`):
the fields `id` and `role` signed into the token at login/registration. -/
structure Token where
  id : Nat
  role : String
deriving Repr, DecidableEq

/-- A document of the `User` collection (`userSchema`). `password` stores the
bcrypt hash.  `studentId` / `enrollmentDate` are the optional student-only
fields. -/
structure StoredUser where
  id : Nat
  email : String
  password : String
  role : String
  studentId : Option String
  enrollmentDate : Option Nat
deriving Repr, DecidableEq

/-- One entry of `classroomSchema.members`: a user reference and a role. -/
structure Member where
  user : Nat
  role : String
deriving Repr, DecidableEq

/-- A document of the `Classroom` collection (`classroomSchema`). -/
structure Classroom where
  id : Nat
  name : String
  description : String
  joinCode : String
  createdBy : Nat
  members : List Member
deriving Repr, DecidableEq

/-- A document of the `AttendanceSession` collection
(`attendanceSessionSchema`): status is "active" or "ended". -/
structure Session where
  id : Nat
  classroom : Nat
  startTime : Nat
  endTime : Option Nat
  status : String
  createdBy : Nat
deriving Repr, DecidableEq

/-- A document of the `AttendanceRecord` collection
(`attendanceRecordSchema`): schema enum fixes status to "present" and the
`session` reference is required. -/
structure SessionRecord where
  id : Nat
  session : Nat
  student : Nat
  status : String
  markedAt : Nat
deriving Repr, DecidableEq

/-- The MongoDB state: one list per collection, in insertion order (matching
`find` / `findOne` first-match semantics on an unindexed scan order). -/
structure DB where
  users : List StoredUser
  classrooms : List Classroom
  sessions : List Session
  records : List SessionRecord
deriving Repr, DecidableEq

/-- Model of bcrypt as an external collaborator: an injective placeholder for
`bcrypt.hash`, with `bcrypt.compare submitted stored` modelled as
`hashPw submitted == stored`. -/
def hashPw (p : String) : String := "bcrypt$" ++ p

/-- The ASCII capital letters. -/
def upperChars : List Char := "ABCDEFGHIJKLMNOPQRSTUVWXYZ".data

/-- The ASCII small letters. -/
def lowerChars : List Char := "abcdefghijklmnopqrstuvwxyz".data

/-- Model of JavaScript `String.prototype.toLowerCase` on one character
(table lookup over the ASCII range; the inputs this development feeds it are
ASCII). -/
def jsCharToLower (c : Char) : Char :=
  match (upperChars.zip lowerChars).find? (fun p => p.1 == c) with
  | some p => p.2
  | none => c

/-- Model of JavaScript `String.prototype.toUpperCase` on one character. -/
def jsCharToUpper (c : Char) : Char :=
  match (lowerChars.zip upperChars).find? (fun p => p.1 == c) with
  | some p => p.2
  | none => c

/-- Model of `String.prototype.toLowerCase`. -/
def jsToLowerCase (s : String) : String := String.mk (s.data.map jsCharToLower)

/-- Model of `String.prototype.trim`: strip whitespace from both ends. -/
def jsTrim (s : String) : String :=
  String.mk (((s.data.dropWhile Char.isWhitespace).reverse.dropWhile Char.isWhitespace).reverse)

/-- JavaScript `email.split("@")[0]`: the characters before the first `@`
(the whole string when there is none). -/
def localPart (s : String) : String := String.mk (s.data.takeWhile (fun c => c != '@'))

/-- `mongoose save` of a document obtained from `findById`: replace the first
stored document with the same `_id` (Mongo keeps `_id` unique, so the first
match is the match). -/
def saveSession : List Session → Session → List Session
  | [], _ => []
  | t :: ts, s => if t.id == s.id then s :: ts else t :: saveSession ts s

/-- Same for classroom documents. -/
def saveClassroom : List Classroom → Classroom → List Classroom
  | [], _ => []
  | t :: ts, c => if t.id == c.id then c :: ts else t :: saveClassroom ts c

/-- The email-format regex of the register handler,
`^[^\s@]+@[^\s@]+\.[^\s@]+$`: exactly one `@`, no whitespace, a nonempty
local part, and a dot in the interior of the domain part (so both the piece
before the dot and the piece after it are nonempty; either piece may itself
contain further dots, as in the regex). -/
def validEmailFormat (s : String) : Bool :=
  let l := s.data
  l.count '@' == 1 &&
  l.all (fun c => !c.isWhitespace) &&
  !(l.takeWhile (fun c => c != '@')).isEmpty &&
  (let domain := (l.dropWhile (fun c => c != '@')).drop 1
   ((domain.drop 1).dropLast.contains '.'))

/-- Handler of `POST /api/auth/register` (`server/index.js:131`).  `now` is
the clock value used for the default enrollment date; `newId` the fresh
ObjectId assigned by Mongo. -/
def register (db : DB) (email password role : String) (studentId : Option String)
    (enrollmentDate : Option Nat) (now newId : Nat) : DB × ApiResult StoredUser :=
  if (jsTrim email).data.isEmpty then (db, .err 400 "Valid email is required")
  else
    let e := jsToLowerCase (jsTrim email)
    if !validEmailFormat e then (db, .err 400 "Invalid email format")
    else if password.length < 6 then
      (db, .err 400 "Password must be at least 6 characters long")
    else if !(["admin", "student"].contains role) then (db, .err 400 "Invalid role")
    else
      match db.users.find? (fun u => u.email == e) with
      | some _ => (db, .err 409 "User already exists")
      | none =>
        let sid : String :=
          match studentId with
          | some s => if s.data.isEmpty then localPart e else s
          | none => localPart e
        let user : StoredUser :=
          { id := newId, email := e, password := hashPw password, role := role,
            studentId := if role == "student" then some sid else none,
            enrollmentDate := if role == "student" then some (enrollmentDate.getD now) else none }
        ({ db with users := db.users ++ [user] }, .ok user)

/-- Handler of `POST /api/auth/login` (`server/index.js:211`).  Pure: the
handler never writes.  The lookup uses the submitted email verbatim. -/
def login (db : DB) (email password : String) : ApiResult StoredUser :=
  if email.data.isEmpty || password.data.isEmpty then .err 400 "Email and password are required"
  else
    match db.users.find? (fun u => u.email == email) with
    | none => .err 400 "Invalid email or password"
    | some user =>
      if hashPw password != user.password then .err 400 "Invalid email or password"
      else .ok user

/-- Handler of `POST /api/classrooms` (`server/index.js:261`).  `code` is the
single value the handler draws from `generateJoinCode()`; on a duplicate
join code the unique index makes `classroom.save()` throw, and the catch
block answers 500. -/
def createClassroom (db : DB) (tok : Token) (name : String) (description : Option String)
    (code : String) (newId : Nat) : DB × ApiResult Classroom :=
  if (jsTrim name).data.isEmpty then (db, .err 400 "Classroom name is required")
  else
    match db.users.find? (fun u => u.id == tok.id) with
    | none => (db, .err 404 "User not found")
    | some user =>
      if user.role != "admin" then (db, .err 403 "Only admins can create classrooms")
      else
        let classroom : Classroom :=
          { id := newId, name := jsTrim name, description := jsTrim (description.getD ""),
            joinCode := code, createdBy := user.id,
            members := [{ user := user.id, role := "admin" }] }
        if db.classrooms.any (fun c => c.joinCode == code) then
          (db, .err 500 "Server error while creating classroom")
        else ({ db with classrooms := db.classrooms ++ [classroom] }, .ok classroom)

/-- Handler of `GET /api/classrooms/:id` (`server/index.js:346`): a single
`findOne` keyed on both the id and the caller being a member, answering the
same 404 whether the classroom is absent or the caller is not a member. -/
def getClassroom (db : DB) (tok : Token) (classroomId : Nat) : ApiResult Classroom :=
  match db.classrooms.find? (fun c => c.id == classroomId && c.members.any (fun m => m.user == tok.id)) with
  | none => .err 404 "Classroom not found"
  | some classroom => .ok classroom

/-- Handler of `POST /api/classrooms/join` (`server/index.js:364`). -/
def joinClassroom (db : DB) (tok : Token) (joinCode : String) : DB × ApiResult Classroom :=
  match db.classrooms.find? (fun c => c.joinCode == joinCode) with
  | none => (db, .err 404 "Invalid join code")
  | some classroom =>
    if classroom.members.any (fun m => m.user == tok.id) then
      (db, .err 400 "Already a member of this classroom")
    else
      let classroom' := { classroom with members := classroom.members ++ [{ user := tok.id, role := "student" }] }
      ({ db with classrooms := saveClassroom db.classrooms classroom' }, .ok classroom')

/-- Handler of the legacy `POST /api/attendance/:classroomId/mark`
(`server/index.js:398`).  It builds an `AttendanceRecord` with a `classroom`
field (absent from the schema, dropped under strict mode) and no `session`
field; since the schema marks `session` required, `attendance.save()` always
fails validation and the catch block answers 500, so this path never inserts
a record. -/
def legacyMark (db : DB) (tok : Token) (classroomId : Nat) (status : String) :
    DB × ApiResult Unit :=
  if !(["present", "absent", "late"].contains status) then
    (db, .err 400 "Invalid attendance status")
  else
    match db.classrooms.find? (fun c => c.id == classroomId) with
    | none => (db, .err 404 "Classroom not found")
    | some classroom =>
      if !(classroom.members.any (fun m => m.user == tok.id)) then
        (db, .err 403 "You are not enrolled in this classroom")
      else (db, .err 500 "Failed to mark attendance")

/-- Handler of `POST /api/attendance/session/start/:classroomId`
(`server/index.js:460`).  Order of checks as in the source: classroom
existence, then token role, then the active-session query. -/
def startSession (db : DB) (tok : Token) (classroomId now newId : Nat) :
    DB × ApiResult Session :=
  match db.classrooms.find? (fun c => c.id == classroomId) with
  | none => (db, .err 404 "Classroom not found")
  | some _ =>
    if tok.role != "admin" then (db, .err 403 "Only admin can start attendance")
    else
      match db.sessions.find? (fun s => s.classroom == classroomId && s.status == "active") with
      | some _ => (db, .err 400 "An attendance session is already active")
      | none =>
        let session : Session :=
          { id := newId, classroom := classroomId, startTime := now, endTime := none,
            status := "active", createdBy := tok.id }
        ({ db with sessions := db.sessions ++ [session] }, .ok session)

/-- Handler of `POST /api/attendance/session/:sessionId/end`
(`server/index.js:498`). -/
def endSession (db : DB) (tok : Token) (sessionId now : Nat) : DB × ApiResult Session :=
  match db.sessions.find? (fun s => s.id == sessionId) with
  | none => (db, .err 404 "Session not found")
  | some session =>
    if tok.role != "admin" then (db, .err 403 "Only admin can end attendance")
    else if session.status == "ended" then (db, .err 400 "Session already ended")
    else
      let session' := { session with status := "ended", endTime := some now }
      ({ db with sessions := saveSession db.sessions session' }, .ok session')

/-- Handler of `POST /api/attendance/session/:sessionId/mark`
(`server/index.js:526`).  When the session's classroom reference dangles the
source dereferences `classroom.members` on `null` and the catch block
answers 500. -/
def markSession (db : DB) (tok : Token) (sessionId now newId : Nat) :
    DB × ApiResult SessionRecord :=
  match db.sessions.find? (fun s => s.id == sessionId) with
  | none => (db, .err 404 "Session not found")
  | some session =>
    if session.status != "active" then (db, .err 400 "Attendance session is not active")
    else if tok.role != "student" then (db, .err 403 "Only students can mark attendance")
    else
      match db.classrooms.find? (fun c => c.id == session.classroom) with
      | none => (db, .err 500 "Failed to mark attendance")
      | some classroom =>
        if !(classroom.members.any (fun m => m.user == tok.id)) then
          (db, .err 403 "You are not enrolled in this classroom")
        else
          match db.records.find? (fun r => r.session == sessionId && r.student == tok.id) with
          | some _ => (db, .err 400 "Attendance already marked")
          | none =>
            let record : SessionRecord :=
              { id := newId, session := sessionId, student := tok.id,
                status := "present", markedAt := now }
            ({ db with records := db.records ++ [record] }, .ok record)

/-- One request against the API surface, carrying the decoded token payload
and the environment values (clock, fresh ids, generated join code) the
handler consumes.  The GET endpoints (`/api/classrooms`,
`/api/classrooms/:id`, `/api/attendance/:classroomId`,
`/api/attendance/session/active/:classroomId`,
`/api/attendance/session/records/:classroomId`,
`/api/attendance/session/:sessionId`) issue only `find` / `findOne`
queries and never call `save`, as does `POST /api/auth/login`; they are
grouped under `readOnly`. -/
inductive Op where
  | registerOp (email password role : String) (studentId : Option String)
      (enrollmentDate : Option Nat) (now newId : Nat)
  | createClassroomOp (tok : Token) (name : String) (description : Option String)
      (code : String) (newId : Nat)
  | joinClassroomOp (tok : Token) (joinCode : String)
  | legacyMarkOp (tok : Token) (classroomId : Nat) (status : String)
  | startSessionOp (tok : Token) (classroomId now newId : Nat)
  | endSessionOp (tok : Token) (sessionId now : Nat)
  | markSessionOp (tok : Token) (sessionId now newId : Nat)
  | readOnly

/-- Database state after one request: the state component of the handler's
result. -/
def step (op : Op) (db : DB) : DB :=
  match op with
  | .registerOp e p r sid ed now nid => (register db e p r sid ed now nid).1
  | .createClassroomOp tok n d code nid => (createClassroom db tok n d code nid).1
  | .joinClassroomOp tok code => (joinClassroom db tok code).1
  | .legacyMarkOp tok cid st => (legacyMark db tok cid st).1
  | .startSessionOp tok cid now nid => (startSession db tok cid now nid).1
  | .endSessionOp tok sid now => (endSession db tok sid now).1
  | .markSessionOp tok sid now nid => (markSession db tok sid now nid).1
  | .readOnly => db

/-- The 36 digit characters `Number.prototype.toString(36)` can emit. -/
def base36Digits : List Char := "0123456789abcdefghijklmnopqrstuvwxyz".data

/-- Characterisation of the strings `Math.random().toString(36)` can produce.
`Math.random()` returns a double in `[0, 1)`; for a radix other than 10,
`toString` prints the plain positional expansion (never exponent notation)
and stops after the last nonzero fraction digit, so the result is `"0"`
(for the value 0) or `"0."` followed by a nonempty run of base-36 digits
whose last digit is not `'0'`.  Both of the concrete outcomes used below are
reachable: 0 and 0.5 are values the generator can return, and
`(0.5).toString(36)` is `"0.i"`. -/
def isRandomToString36 (s : String) : Prop :=
  s = "0" ∨ ∃ ds : List Char, ds ≠ [] ∧ (∀ c ∈ ds, c ∈ base36Digits) ∧
    ds.getLast? ≠ some '0' ∧ s.data = '0' :: '.' :: ds

/-- `generateJoinCode` (`server/index.js:126`), applied to the string returned
by `Math.random().toString(36)`: `substring(2, 8)` keeps the characters at
indices 2 through 7 (fewer when the string is shorter) and `toUpperCase`
upcases them. -/
def generateJoinCode (s : String) : String :=
  String.mk (((s.data.drop 2).take 6).map jsCharToUpper)

/-- The uppercase-alphanumeric alphabet of the claimed 36^6 code space. -/
def upperAlnum : List Char := "0123456789ABCDEFGHIJKLMNOPQRSTUVWXYZ".data

/-- Number of sessions of classroom `cid` whose status is "active". -/
def activeCount (db : DB) (cid : Nat) : Nat :=
  db.sessions.countP (fun s => s.classroom == cid && s.status == "active")

/-- Invariant: at most one active session per classroom. -/
def atMostOneActive (db : DB) : Prop := ∀ cid, activeCount db cid ≤ 1

/-- Number of attendance records for the (session, student) pair. -/
def pairCount (db : DB) (sid stid : Nat) : Nat :=
  db.records.countP (fun r => r.session == sid && r.student == stid)

/-- `s` contains no ASCII capital letter. -/
def noAsciiUpper (s : String) : Bool := s.data.all (fun c => !(upperChars.contains c))

/-- Invariant: every stored email is free of ASCII capitals (registration
lowercases before storing, and it is the only write to the users
collection). -/
def emailsLowercased (db : DB) : Prop := ∀ u ∈ db.users, noAsciiUpper u.email = true

/-! ## Theorems -/

/-- C3 is false of the code as stated: the handler checks classroom existence
before the requester role, so a non-admin request naming a classroom that
does not exist fails with 404 NotFound, not 403 Forbidden.  Concrete input:
empty database, token of user 1 with role student, classroom id 5. -/
theorem C3_counterexample :
    startSession ⟨[], [], [], []⟩ ⟨1, "student"⟩ 5 0 7 =
      (⟨[], [], [], []⟩, ApiResult.err 404 "Classroom not found") ∧
    (ApiResult.err 404 "Classroom not found" : ApiResult Session) ≠
      ApiResult.err 403 "Only admin can start attendance" := by
  exact ⟨rfl, by decide⟩

/-- C3 (amended): a startSession request by a non-admin requester never
creates a session; it fails with Forbidden when the classroom exists and
with NotFound when it does not, because the handler checks classroom
existence before the role. -/
theorem C3_nonadmin_start (db : DB) (tok : Token) (cid now nid : Nat)
    (h : tok.role ≠ "admin") :
    (startSession db tok cid now nid).1 = db ∧
    ((db.classrooms.find? (fun c => c.id == cid)).isSome →
      (startSession db tok cid now nid).2 = .err 403 "Only admin can start attendance") ∧
    (db.classrooms.find? (fun c => c.id == cid) = none →
      (startSession db tok cid now nid).2 = .err 404 "Classroom not found") := by
  unfold startSession
  cases hfind : db.classrooms.find? (fun c => c.id == cid) with
  | none => simp
  | some c => simp [h]

/-- Witness for the amended C3 at a concrete input: a student token against
an existing classroom is refused with 403, and the state is unchanged. -/
theorem C3_nonadmin_start_witness :
    (startSession ⟨[], [⟨1, "Math", "", "ABC123", 1, [⟨1, "admin"⟩]⟩], [], []⟩
        ⟨2, "student"⟩ 1 0 7).1 =
      ⟨[], [⟨1, "Math", "", "ABC123", 1, [⟨1, "admin"⟩]⟩], [], []⟩ ∧
    ((((⟨[], [⟨1, "Math", "", "ABC123", 1, [⟨1, "admin"⟩]⟩], [], []⟩ : DB).classrooms.find?
        (fun c => c.id == 1)).isSome →
      (startSession ⟨[], [⟨1, "Math", "", "ABC123", 1, [⟨1, "admin"⟩]⟩], [], []⟩
          ⟨2, "student"⟩ 1 0 7).2 = .err 403 "Only admin can start attendance") ∧
    ((⟨[], [⟨1, "Math", "", "ABC123", 1, [⟨1, "admin"⟩]⟩], [], []⟩ : DB).classrooms.find?
        (fun c => c.id == 1) = none →
      (startSession ⟨[], [⟨1, "Math", "", "ABC123", 1, [⟨1, "admin"⟩]⟩], [], []⟩
          ⟨2, "student"⟩ 1 0 7).2 = .err 404 "Classroom not found")) :=
  C3_nonadmin_start ⟨[], [⟨1, "Math", "", "ABC123", 1, [⟨1, "admin"⟩]⟩], [], []⟩
    ⟨2, "student"⟩ 1 0 7 (by decide)

/-- C5 is false of the code: the handler draws a single join code and never
retries; when the code collides with an existing classroom the unique-index
failure is caught and answered as 500 Internal on the first occurrence, and
no classroom is created.  Concrete input: database holding classroom "Math"
with join code "ABC123", and the generator producing "ABC123" again. -/
theorem C5_counterexample :
    createClassroom ⟨[⟨1, "t@x.com", "bcrypt$secret1", "admin", none, none⟩],
        [⟨7, "Math", "", "ABC123", 1, [⟨1, "admin"⟩]⟩], [], []⟩
      ⟨1, "admin"⟩ "Phys" none "ABC123" 8 =
    (⟨[⟨1, "t@x.com", "bcrypt$secret1", "admin", none, none⟩],
        [⟨7, "Math", "", "ABC123", 1, [⟨1, "admin"⟩]⟩], [], []⟩,
     ApiResult.err 500 "Server error while creating classroom") := by
  rfl

/-- C5 (amended): createClassroom draws one join code and does not retry;
whenever the drawn code equals an existing classroom's code, the request
fails with Internal (500) and the state is unchanged. -/
theorem C5_collision_internal (db : DB) (tok : Token) (name : String)
    (description : Option String) (code : String) (nid : Nat)
    (hname : (jsTrim name).data.isEmpty = false)
    (user : StoredUser) (huser : db.users.find? (fun u => u.id == tok.id) = some user)
    (hrole : user.role = "admin")
    (hcol : db.classrooms.any (fun c => c.joinCode == code) = true) :
    createClassroom db tok name description code nid =
      (db, .err 500 "Server error while creating classroom") := by
  unfold createClassroom
  simp [hname, huser, hrole, hcol]

/-- Witness for the amended C5 at a concrete input. -/
theorem C5_collision_internal_witness :
    createClassroom ⟨[⟨3, "u@y.com", "bcrypt$secret1", "admin", none, none⟩],
        [⟨9, "Chem", "", "ZZZ999", 3, [⟨3, "admin"⟩]⟩], [], []⟩
      ⟨3, "admin"⟩ "Bio" none "ZZZ999" 10 =
      (⟨[⟨3, "u@y.com", "bcrypt$secret1", "admin", none, none⟩],
        [⟨9, "Chem", "", "ZZZ999", 3, [⟨3, "admin"⟩]⟩], [], []⟩,
       .err 500 "Server error while creating classroom") :=
  C5_collision_internal _ _ "Bio" none "ZZZ999" 10 (by decide) _ (by rfl) (by rfl) (by decide)

/-- C7: for a caller who is not a member, getClassroom answers the very same
404 NotFound as for a classroom id that does not exist at all, so the two
runs are indistinguishable to the caller. -/
theorem C7_nonmember_indistinguishable (db : DB) (tok : Token) (cid1 cid2 : Nat)
    (h1 : ∀ c ∈ db.classrooms, c.id = cid1 → ∀ m ∈ c.members, m.user ≠ tok.id)
    (h2 : ∀ c ∈ db.classrooms, c.id ≠ cid2) :
    getClassroom db tok cid1 = .err 404 "Classroom not found" ∧
    getClassroom db tok cid1 = getClassroom db tok cid2 := by
  have e1 : db.classrooms.find?
      (fun c => c.id == cid1 && c.members.any (fun m => m.user == tok.id)) = none := by
    rw [List.find?_eq_none]
    intro c hc
    simp only [Bool.and_eq_true, beq_iff_eq, List.any_eq_true, not_and]
    rintro hid ⟨m, hm, hmu⟩
    exact h1 c hc hid m hm hmu
  have e2 : db.classrooms.find?
      (fun c => c.id == cid2 && c.members.any (fun m => m.user == tok.id)) = none := by
    rw [List.find?_eq_none]
    intro c hc
    simp only [Bool.and_eq_true, beq_iff_eq, not_and]
    intro hid
    exact absurd hid (h2 c hc)
  unfold getClassroom
  rw [e1, e2]
  exact ⟨rfl, rfl⟩

/-- Witness for C7 at a concrete input: user 3 is not a member of classroom
1, and classroom 9 does not exist; both lookups answer the same 404. -/
theorem C7_nonmember_indistinguishable_witness :
    getClassroom ⟨[], [⟨1, "Math", "", "ABC123", 2, [⟨2, "admin"⟩]⟩], [], []⟩
        ⟨3, "student"⟩ 1 = .err 404 "Classroom not found" ∧
    getClassroom ⟨[], [⟨1, "Math", "", "ABC123", 2, [⟨2, "admin"⟩]⟩], [], []⟩
        ⟨3, "student"⟩ 1 =
      getClassroom ⟨[], [⟨1, "Math", "", "ABC123", 2, [⟨2, "admin"⟩]⟩], [], []⟩
        ⟨3, "student"⟩ 9 :=
  C7_nonmember_indistinguishable ⟨[], [⟨1, "Math", "", "ABC123", 2, [⟨2, "admin"⟩]⟩], [], []⟩
    ⟨3, "student"⟩ 1 9 (by decide) (by decide)

/-- C4 is false of the code as stated: not every outcome of the random
generator yields a 6-character code.  `(0.5).toString(36)` is `"0.i"`
(0.5 is a value `Math.random()` can return), `substring(2, 8)` of it is
`"i"`, and the resulting join code `"I"` has length 1. -/
theorem C4_counterexample :
    isRandomToString36 "0.i" ∧ (generateJoinCode "0.i").length = 1 :=
  ⟨Or.inr ⟨['i'], by decide, by decide, by decide, rfl⟩, rfl⟩

/-- C4 (amended): every join code consists only of uppercase alphanumeric
characters and has at most 6 of them; it has exactly 6 whenever the random
value's base-36 expansion carries at least 6 fraction digits. -/
theorem C4_joinCode_shape (s : String) (h : isRandomToString36 s) :
    (generateJoinCode s).length ≤ 6 ∧
    (∀ c ∈ (generateJoinCode s).data, c ∈ upperAlnum) ∧
    (∀ ds : List Char, s.data = '0' :: '.' :: ds → 6 ≤ ds.length →
      (generateJoinCode s).length = 6) := by
  have hmap : ∀ c ∈ base36Digits, jsCharToUpper c ∈ upperAlnum := by decide
  cases h with
  | inl h0 =>
    subst h0
    refine ⟨by decide, by decide, ?_⟩
    intro ds hds
    have : ("0" : String).data = ['0'] := rfl
    rw [this] at hds
    simp at hds
  | inr hex =>
    obtain ⟨ds, hne, hdig, hlast, hdata⟩ := hex
    have hgen : (generateJoinCode s).data = (ds.take 6).map jsCharToUpper := by
      simp [generateJoinCode, hdata]
    have hlen : (generateJoinCode s).length = ((ds.take 6).map jsCharToUpper).length := by
      show (generateJoinCode s).data.length = _
      rw [hgen]
    refine ⟨?_, ?_, ?_⟩
    · rw [hlen, List.length_map, List.length_take]
      exact Nat.min_le_left 6 ds.length
    · intro c hc
      rw [hgen] at hc
      obtain ⟨d, hd, rfl⟩ := List.mem_map.mp hc
      exact hmap d (hdig d (List.mem_of_mem_take hd))
    · intro ds' hds' hlen6
      rw [hdata] at hds'
      have : ds = ds' := by simpa using hds'
      subst this
      rw [hlen, List.length_map, List.length_take]
      omega

/-- Witness for the amended C4 at a concrete input with a long expansion. -/
theorem C4_joinCode_shape_witness :
    (generateJoinCode "0.abc123xyz").length ≤ 6 ∧
    (∀ c ∈ (generateJoinCode "0.abc123xyz").data, c ∈ upperAlnum) ∧
    (∀ ds : List Char, ("0.abc123xyz" : String).data = '0' :: '.' :: ds → 6 ≤ ds.length →
      (generateJoinCode "0.abc123xyz").length = 6) :=
  C4_joinCode_shape "0.abc123xyz"
    (Or.inr ⟨['a', 'b', 'c', '1', '2', '3', 'x', 'y', 'z'], by decide, by decide, by decide, rfl⟩)

/-- C6: joinClassroom answers NotFound when no classroom carries the code;
answers Conflict (400, "Already a member of this classroom") with the state
untouched when the caller is already a member of the matching classroom;
and otherwise appends the caller to the member list with role student. -/
theorem C6_join_behavior (db : DB) (tok : Token) (code : String) :
    (db.classrooms.find? (fun c => c.joinCode == code) = none →
      joinClassroom db tok code = (db, .err 404 "Invalid join code")) ∧
    (∀ c, db.classrooms.find? (fun c0 => c0.joinCode == code) = some c →
      (∃ m ∈ c.members, m.user = tok.id) →
      joinClassroom db tok code = (db, .err 400 "Already a member of this classroom")) ∧
    (∀ c, db.classrooms.find? (fun c0 => c0.joinCode == code) = some c →
      (∀ m ∈ c.members, m.user ≠ tok.id) →
      ∃ c', (joinClassroom db tok code).2 = .ok c' ∧
        c'.members = c.members ++ [{ user := tok.id, role := "student" }] ∧
        (joinClassroom db tok code).1 =
          { db with classrooms := saveClassroom db.classrooms c' }) := by
  refine ⟨?_, ?_, ?_⟩
  · intro hnone
    unfold joinClassroom
    rw [hnone]
  · intro c hc hmem
    have hany : c.members.any (fun m => m.user == tok.id) = true := by
      rw [List.any_eq_true]
      obtain ⟨m, hm, he⟩ := hmem
      exact ⟨m, hm, beq_iff_eq.mpr he⟩
    unfold joinClassroom
    rw [hc]
    simp [hany]
  · intro c hc hno
    have hany : c.members.any (fun m => m.user == tok.id) = false := by
      rw [Bool.eq_false_iff]
      intro hcon
      rw [List.any_eq_true] at hcon
      obtain ⟨m, hm, he⟩ := hcon
      exact hno m hm (beq_iff_eq.mp he)
    refine ⟨{ c with members := c.members ++ [{ user := tok.id, role := "student" }] }, ?_, rfl, ?_⟩
    all_goals
      unfold joinClassroom
      rw [hc]
      simp [hany]

/-- Witness for C6 at a concrete input: user 5 joins classroom "Math" via
code "ABC123" and is appended as a student member. -/
theorem C6_join_behavior_witness :
    ∃ c', (joinClassroom ⟨[], [⟨1, "Math", "", "ABC123", 2, [⟨2, "admin"⟩]⟩], [], []⟩
        ⟨5, "student"⟩ "ABC123").2 = .ok c' ∧
      c'.members = [⟨2, "admin"⟩] ++ [{ user := 5, role := "student" }] ∧
      (joinClassroom ⟨[], [⟨1, "Math", "", "ABC123", 2, [⟨2, "admin"⟩]⟩], [], []⟩
          ⟨5, "student"⟩ "ABC123").1 =
        { (⟨[], [⟨1, "Math", "", "ABC123", 2, [⟨2, "admin"⟩]⟩], [], []⟩ : DB) with
            classrooms := saveClassroom
              [⟨1, "Math", "", "ABC123", 2, [⟨2, "admin"⟩]⟩] c' } :=
  (C6_join_behavior ⟨[], [⟨1, "Math", "", "ABC123", 2, [⟨2, "admin"⟩]⟩], [], []⟩
      ⟨5, "student"⟩ "ABC123").2.2
    ⟨1, "Math", "", "ABC123", 2, [⟨2, "admin"⟩]⟩ (by rfl) (by decide)

/-- Appending an element that satisfies the predicate to a list on which
`find?` fails makes `find?` return exactly that element. -/
theorem find?_append_singleton {α : Type} (l : List α) (p : α → Bool) (a : α)
    (hl : l.find? p = none) (ha : p a = true) : (l ++ [a]).find? p = some a := by
  induction l with
  | nil => simp [List.find?, ha]
  | cons x xs ih =>
    have hx : ¬ p x := by
      intro hcon
      exact absurd (List.find?_cons_of_pos xs hcon ▸ hl) (by simp)
    have hxs : xs.find? p = none := by
      rwa [List.find?_cons_of_neg xs hx] at hl
    rw [List.cons_append, List.find?_cons_of_neg _ hx]
    exact ih hxs

/-- C9: session control checks only the role carried by the token, never
classroom membership: an admin who is neither the creator nor a member of
the classroom still starts a session successfully when none is active, and
still ends any active session. -/
theorem C9_membership_not_checked :
    (∀ (db : DB) (tok : Token) (cid now nid : Nat) (c : Classroom),
      tok.role = "admin" →
      db.classrooms.find? (fun c0 => c0.id == cid) = some c →
      (∀ m ∈ c.members, m.user ≠ tok.id) → c.createdBy ≠ tok.id →
      db.sessions.find? (fun s => s.classroom == cid && s.status == "active") = none →
      startSession db tok cid now nid =
        ({ db with sessions := db.sessions ++
            [{ id := nid, classroom := cid, startTime := now, endTime := none,
               status := "active", createdBy := tok.id }] },
         .ok { id := nid, classroom := cid, startTime := now, endTime := none,
               status := "active", createdBy := tok.id })) ∧
    (∀ (db : DB) (tok : Token) (sid now : Nat) (s : Session) (c : Classroom),
      tok.role = "admin" →
      db.sessions.find? (fun t => t.id == sid) = some s → s.status = "active" →
      db.classrooms.find? (fun c0 => c0.id == s.classroom) = some c →
      (∀ m ∈ c.members, m.user ≠ tok.id) → c.createdBy ≠ tok.id →
      endSession db tok sid now =
        ({ db with sessions :=
            (saveSession db.sessions { s with status := "ended", endTime := some now }) },
         .ok { s with status := "ended", endTime := some now })) := by
  constructor
  · intro db tok cid now nid c hrole hc _ _ hs
    unfold startSession
    rw [hc, hs]
    simp [hrole]
  · intro db tok sid now s c hrole hf hactive _ _ _
    unfold endSession
    rw [hf]
    simp [hrole, hactive]

/-- Witness for C9 at a concrete input: admin 9 is neither creator nor
member of classroom 1, yet starts a session; admin 8, likewise unrelated,
ends it. -/
theorem C9_membership_not_checked_witness :
    (startSession ⟨[], [⟨1, "Math", "", "ABC123", 2, [⟨2, "admin"⟩, ⟨3, "student"⟩]⟩], [], []⟩
        ⟨9, "admin"⟩ 1 100 20 =
      ({ (⟨[], [⟨1, "Math", "", "ABC123", 2, [⟨2, "admin"⟩, ⟨3, "student"⟩]⟩], [], []⟩ : DB) with
          sessions := [] ++
            [{ id := 20, classroom := 1, startTime := 100, endTime := none,
               status := "active", createdBy := 9 }] },
       .ok { id := 20, classroom := 1, startTime := 100, endTime := none,
             status := "active", createdBy := 9 })) ∧
    (endSession ⟨[], [⟨1, "Math", "", "ABC123", 2, [⟨2, "admin"⟩, ⟨3, "student"⟩]⟩],
        [⟨20, 1, 100, none, "active", 9⟩], []⟩ ⟨8, "admin"⟩ 20 110 =
      ({ (⟨[], [⟨1, "Math", "", "ABC123", 2, [⟨2, "admin"⟩, ⟨3, "student"⟩]⟩],
            [⟨20, 1, 100, none, "active", 9⟩], []⟩ : DB) with
          sessions :=
            (saveSession [⟨20, 1, 100, none, "active", 9⟩]
              { (⟨20, 1, 100, none, "active", 9⟩ : Session) with
                  status := "ended", endTime := some 110 }) },
       .ok { (⟨20, 1, 100, none, "active", 9⟩ : Session) with
               status := "ended", endTime := some 110 })) :=
  ⟨C9_membership_not_checked.1 _ ⟨9, "admin"⟩ 1 100 20
      ⟨1, "Math", "", "ABC123", 2, [⟨2, "admin"⟩, ⟨3, "student"⟩]⟩
      rfl (by rfl) (by decide) (by decide) (by rfl),
   C9_membership_not_checked.2 _ ⟨8, "admin"⟩ 20 110 ⟨20, 1, 100, none, "active", 9⟩
      ⟨1, "Math", "", "ABC123", 2, [⟨2, "admin"⟩, ⟨3, "student"⟩]⟩
      rfl (by rfl) rfl (by rfl) (by decide) (by decide)⟩

/-- C2: for an active session and a student member of its classroom with no
record yet, the first markPresent succeeds and stores a status=present
record for the pair; the second fails with Conflict (400, "Attendance
already marked") and changes nothing, so the pair's record count is 1 after
either call. -/
theorem C2_double_mark (db : DB) (tok : Token) (sid now1 nid1 now2 nid2 : Nat)
    (session : Session) (classroom : Classroom)
    (hs : db.sessions.find? (fun s => s.id == sid) = some session)
    (hactive : session.status = "active")
    (hrole : tok.role = "student")
    (hc : db.classrooms.find? (fun c => c.id == session.classroom) = some classroom)
    (hm : classroom.members.any (fun m => m.user == tok.id) = true)
    (hnone : db.records.find? (fun r => r.session == sid && r.student == tok.id) = none) :
    ∃ rec, (markSession db tok sid now1 nid1).2 = .ok rec ∧
      rec.status = "present" ∧ rec.session = sid ∧ rec.student = tok.id ∧
      pairCount db sid tok.id = 0 ∧
      pairCount (markSession db tok sid now1 nid1).1 sid tok.id = 1 ∧
      markSession (markSession db tok sid now1 nid1).1 tok sid now2 nid2 =
        ((markSession db tok sid now1 nid1).1, .err 400 "Attendance already marked") := by
  have hpred : (fun r : SessionRecord => r.session == sid && r.student == tok.id)
      (⟨nid1, sid, tok.id, "present", now1⟩ : SessionRecord) = true := by simp
  have hrun : markSession db tok sid now1 nid1 =
      ({ db with records := db.records ++ [⟨nid1, sid, tok.id, "present", now1⟩] },
       .ok ⟨nid1, sid, tok.id, "present", now1⟩) := by
    simp [markSession, hs, hc, hnone, hactive, hrole, hm]
  have hcount0 : pairCount db sid tok.id = 0 := by
    unfold pairCount
    rw [List.countP_eq_zero]
    intro r hr
    intro hcon
    exact absurd (List.find?_eq_none.mp hnone r hr) (by simp [hcon])
  refine ⟨⟨nid1, sid, tok.id, "present", now1⟩, by rw [hrun], rfl, rfl, rfl, hcount0, ?_, ?_⟩
  · rw [hrun]
    show (db.records ++ [(⟨nid1, sid, tok.id, "present", now1⟩ : SessionRecord)]).countP _ = 1
    rw [List.countP_append]
    have := hcount0
    unfold pairCount at this
    rw [this]
    simp
  · have hfind2 : (db.records ++ [(⟨nid1, sid, tok.id, "present", now1⟩ : SessionRecord)]).find?
        (fun r => r.session == sid && r.student == tok.id) =
        some ⟨nid1, sid, tok.id, "present", now1⟩ :=
      find?_append_singleton _ _ _ hnone hpred
    rw [hrun]
    simp [markSession, hs, hc, hfind2, hactive, hrole, hm]

/-- Witness for C2 at a concrete input: student 3 marks session 20 once
(success) and a second time (Conflict). -/
theorem C2_double_mark_witness :
    ∃ rec, (markSession ⟨[], [⟨1, "Math", "", "ABC123", 2, [⟨2, "admin"⟩, ⟨3, "student"⟩]⟩],
        [⟨20, 1, 100, none, "active", 2⟩], []⟩ ⟨3, "student"⟩ 20 105 30).2 = .ok rec ∧
      rec.status = "present" ∧ rec.session = 20 ∧ rec.student = 3 ∧
      pairCount ⟨[], [⟨1, "Math", "", "ABC123", 2, [⟨2, "admin"⟩, ⟨3, "student"⟩]⟩],
        [⟨20, 1, 100, none, "active", 2⟩], []⟩ 20 3 = 0 ∧
      pairCount (markSession ⟨[], [⟨1, "Math", "", "ABC123", 2, [⟨2, "admin"⟩, ⟨3, "student"⟩]⟩],
        [⟨20, 1, 100, none, "active", 2⟩], []⟩ ⟨3, "student"⟩ 20 105 30).1 20 3 = 1 ∧
      markSession (markSession ⟨[], [⟨1, "Math", "", "ABC123", 2, [⟨2, "admin"⟩, ⟨3, "student"⟩]⟩],
          [⟨20, 1, 100, none, "active", 2⟩], []⟩ ⟨3, "student"⟩ 20 105 30).1
          ⟨3, "student"⟩ 20 106 31 =
        ((markSession ⟨[], [⟨1, "Math", "", "ABC123", 2, [⟨2, "admin"⟩, ⟨3, "student"⟩]⟩],
          [⟨20, 1, 100, none, "active", 2⟩], []⟩ ⟨3, "student"⟩ 20 105 30).1,
         .err 400 "Attendance already marked") :=
  C2_double_mark ⟨[], [⟨1, "Math", "", "ABC123", 2, [⟨2, "admin"⟩, ⟨3, "student"⟩]⟩],
      [⟨20, 1, 100, none, "active", 2⟩], []⟩ ⟨3, "student"⟩ 20 105 30 106 31
    ⟨20, 1, 100, none, "active", 2⟩ ⟨1, "Math", "", "ABC123", 2, [⟨2, "admin"⟩, ⟨3, "student"⟩]⟩
    (by rfl) rfl rfl (by rfl) (by decide) (by rfl)

/-- The register handler never touches the sessions collection. -/
theorem register_sessions (db : DB) (e p r : String) (sid : Option String)
    (ed : Option Nat) (now nid : Nat) :
    (register db e p r sid ed now nid).1.sessions = db.sessions := by
  unfold register
  dsimp only
  repeat' split
  all_goals rfl

/-- The createClassroom handler never touches the sessions collection. -/
theorem createClassroom_sessions (db : DB) (tok : Token) (n : String)
    (d : Option String) (code : String) (nid : Nat) :
    (createClassroom db tok n d code nid).1.sessions = db.sessions := by
  unfold createClassroom
  dsimp only
  repeat' split
  all_goals rfl

/-- The joinClassroom handler never touches the sessions collection. -/
theorem joinClassroom_sessions (db : DB) (tok : Token) (code : String) :
    (joinClassroom db tok code).1.sessions = db.sessions := by
  unfold joinClassroom
  dsimp only
  repeat' split
  all_goals rfl

/-- The legacy direct-mark handler never touches the sessions collection. -/
theorem legacyMark_sessions (db : DB) (tok : Token) (cid : Nat) (st : String) :
    (legacyMark db tok cid st).1.sessions = db.sessions := by
  unfold legacyMark
  repeat' split
  all_goals rfl

/-- The session-mark handler never touches the sessions collection. -/
theorem markSession_sessions (db : DB) (tok : Token) (sid now nid : Nat) :
    (markSession db tok sid now nid).1.sessions = db.sessions := by
  unfold markSession
  dsimp only
  repeat' split
  all_goals rfl

/-- `activeCount` depends only on the sessions collection. -/
theorem activeCount_ext (db db' : DB) (hs : db'.sessions = db.sessions) (cid : Nat) :
    activeCount db' cid = activeCount db cid := by
  unfold activeCount
  rw [hs]

/-- Replacing one stored session by a non-active one never raises the number
of sessions satisfying a predicate that requires status active. -/
theorem countP_saveSession_le (l : List Session) (s : Session)
    (p : Session → Bool) (hp : p s = false) :
    (saveSession l s).countP p ≤ l.countP p := by
  induction l with
  | nil => simp [saveSession]
  | cons t ts ih =>
    rw [saveSession]
    split
    · rw [List.countP_cons, List.countP_cons, hp]
      simp
    · rw [List.countP_cons, List.countP_cons]
      omega

/-- C1: starting from a state with at most one active session per classroom,
every operation of the API surface preserves that invariant; and
startSession rejects with Conflict (400, "An attendance session is already
active") without writing when an active session already exists for the
classroom. -/
theorem C1_single_active (db : DB) (op : Op) (h : atMostOneActive db) :
    atMostOneActive (step op db) ∧
    (∀ (tok : Token) (cid now nid : Nat) (c : Classroom) (s : Session),
      tok.role = "admin" →
      db.classrooms.find? (fun c0 => c0.id == cid) = some c →
      db.sessions.find? (fun t => t.classroom == cid && t.status == "active") = some s →
      startSession db tok cid now nid =
        (db, .err 400 "An attendance session is already active")) := by
  constructor
  · cases op with
    | registerOp e p r sid ed now nid =>
      intro cid
      rw [step, activeCount_ext db _ (register_sessions db e p r sid ed now nid) cid]
      exact h cid
    | createClassroomOp tok n d code nid =>
      intro cid
      rw [step, activeCount_ext db _ (createClassroom_sessions db tok n d code nid) cid]
      exact h cid
    | joinClassroomOp tok code =>
      intro cid
      rw [step, activeCount_ext db _ (joinClassroom_sessions db tok code) cid]
      exact h cid
    | legacyMarkOp tok cid0 st =>
      intro cid
      rw [step, activeCount_ext db _ (legacyMark_sessions db tok cid0 st) cid]
      exact h cid
    | markSessionOp tok sid now nid =>
      intro cid
      rw [step, activeCount_ext db _ (markSession_sessions db tok sid now nid) cid]
      exact h cid
    | readOnly => exact h
    | startSessionOp tok cid0 now nid =>
      rw [step]
      unfold startSession
      cases hc : db.classrooms.find? (fun c => c.id == cid0) with
      | none => exact h
      | some c =>
        by_cases hr : tok.role = "admin"
        · cases hs : db.sessions.find? (fun s => s.classroom == cid0 && s.status == "active") with
          | some s => simp only [hr, bne_self_eq_false, Bool.false_eq_true, if_false]; exact h
          | none =>
            simp only [hr, bne_self_eq_false, Bool.false_eq_true, if_false]
            intro cid
            have h0 : db.sessions.countP
                (fun s => s.classroom == cid0 && s.status == "active") = 0 := by
              rw [List.countP_eq_zero]
              exact List.find?_eq_none.mp hs
            unfold activeCount
            simp only [List.countP_append, List.countP_cons, List.countP_nil]
            by_cases hcid : cid = cid0
            · subst hcid
              rw [h0]
              simp
            · have hcid0 : (cid0 == cid) = false :=
                beq_eq_false_iff_ne.mpr (fun h2 => hcid h2.symm)
              have hne : ((cid0 == cid) && ("active" == "active")) = false := by
                rw [hcid0]
                rfl
              have := h cid
              unfold activeCount at this
              simp only [hne, Bool.false_eq_true, if_false]
              omega
        · have hb : (tok.role != "admin") = true := bne_iff_ne.mpr hr
          simp only [hb, if_true]
          exact h
    | endSessionOp tok sid now =>
      rw [step]
      unfold endSession
      cases hf : db.sessions.find? (fun s => s.id == sid) with
      | none => exact h
      | some s =>
        by_cases hr : tok.role = "admin"
        · by_cases he : s.status == "ended"
          · simp only [hr, bne_self_eq_false, Bool.false_eq_true, if_false, he, if_true]
            exact h
          · simp only [hr, bne_self_eq_false, Bool.false_eq_true, if_false, he]
            intro cid
            unfold activeCount
            refine le_trans (countP_saveSession_le db.sessions _ _ ?_) (h cid)
            simp
        · have hb : (tok.role != "admin") = true := bne_iff_ne.mpr hr
          simp only [hb, if_true]
          exact h
  · intro tok cid now nid c s hrole hc hs
    unfold startSession
    rw [hc, hs]
    simp [hrole]

/-- Witness for C1 at a concrete input: one active session for classroom 1;
a second start attempt is rejected and the invariant persists across a
start operation on the same classroom. -/
theorem C1_single_active_witness :
    atMostOneActive (step (Op.startSessionOp ⟨2, "admin"⟩ 1 101 21)
      ⟨[], [⟨1, "Math", "", "ABC123", 2, [⟨2, "admin"⟩]⟩],
        [⟨20, 1, 100, none, "active", 2⟩], []⟩) ∧
    (∀ (tok : Token) (cid now nid : Nat) (c : Classroom) (s : Session),
      tok.role = "admin" →
      (⟨[], [⟨1, "Math", "", "ABC123", 2, [⟨2, "admin"⟩]⟩],
        [⟨20, 1, 100, none, "active", 2⟩], []⟩ : DB).classrooms.find?
          (fun c0 => c0.id == cid) = some c →
      (⟨[], [⟨1, "Math", "", "ABC123", 2, [⟨2, "admin"⟩]⟩],
        [⟨20, 1, 100, none, "active", 2⟩], []⟩ : DB).sessions.find?
          (fun t => t.classroom == cid && t.status == "active") = some s →
      startSession ⟨[], [⟨1, "Math", "", "ABC123", 2, [⟨2, "admin"⟩]⟩],
          [⟨20, 1, 100, none, "active", 2⟩], []⟩ tok cid now nid =
        (⟨[], [⟨1, "Math", "", "ABC123", 2, [⟨2, "admin"⟩]⟩],
          [⟨20, 1, 100, none, "active", 2⟩], []⟩,
         .err 400 "An attendance session is already active")) :=
  C1_single_active ⟨[], [⟨1, "Math", "", "ABC123", 2, [⟨2, "admin"⟩]⟩],
      [⟨20, 1, 100, none, "active", 2⟩], []⟩
    (Op.startSessionOp ⟨2, "admin"⟩ 1 101 21)
    (by
      intro cid
      unfold activeCount
      simp only [List.countP_cons, List.countP_nil]
      split <;> simp)

/-- An element of the list other than the first id-match survives a
`saveSession` replacement verbatim. -/
theorem mem_saveSession_of_ne (l : List Session) (s' x t0 : Session)
    (hmem : x ∈ l) (hfind : l.find? (fun t => t.id == s'.id) = some t0)
    (hne : x ≠ t0) : x ∈ saveSession l s' := by
  induction l with
  | nil => cases hmem
  | cons u us ih =>
    rw [saveSession]
    by_cases h : (u.id == s'.id) = true
    · have ht0 : t0 = u := by
        rw [List.find?_cons_of_pos us h] at hfind
        exact (Option.some.inj hfind).symm
      rw [if_pos h]
      rcases List.mem_cons.mp hmem with hx | hx
      · exact absurd (ht0 ▸ hx) hne
      · exact List.mem_cons_of_mem _ hx
    · have hfind2 : us.find? (fun t => t.id == s'.id) = some t0 := by
        rwa [List.find?_cons_of_neg us h] at hfind
      rw [if_neg h]
      rcases List.mem_cons.mp hmem with hx | hx
      · exact hx ▸ List.mem_cons_self u _
      · exact List.mem_cons_of_mem _ (ih hx hfind2)

/-- C8: the active-to-ended transition is irreversible.  A stored session
with status ended survives every operation of the API surface verbatim (its
status, startTime and endTime are never modified again); and endSession on
an already-ended session, even by an admin, fails with Conflict (400,
"Session already ended") and leaves the state unchanged. -/
theorem C8_ended_immutable :
    (∀ (op : Op) (db : DB) (s : Session),
      s ∈ db.sessions → s.status = "ended" → s ∈ (step op db).sessions) ∧
    (∀ (db : DB) (tok : Token) (sid now : Nat) (s : Session),
      db.sessions.find? (fun t => t.id == sid) = some s → s.status = "ended" →
      tok.role = "admin" →
      endSession db tok sid now = (db, .err 400 "Session already ended")) := by
  constructor
  · intro op db s hmem hended
    cases op with
    | registerOp e p r sid ed now nid =>
      rw [step, register_sessions]
      exact hmem
    | createClassroomOp tok n d code nid =>
      rw [step, createClassroom_sessions]
      exact hmem
    | joinClassroomOp tok code =>
      rw [step, joinClassroom_sessions]
      exact hmem
    | legacyMarkOp tok cid st =>
      rw [step, legacyMark_sessions]
      exact hmem
    | markSessionOp tok sid now nid =>
      rw [step, markSession_sessions]
      exact hmem
    | readOnly => exact hmem
    | startSessionOp tok cid now nid =>
      rw [step]
      unfold startSession
      cases hc : db.classrooms.find? (fun c => c.id == cid) with
      | none => exact hmem
      | some c =>
        dsimp only
        by_cases hr : (tok.role != "admin") = true
        · rw [if_pos hr]
          exact hmem
        · rw [if_neg hr]
          cases hs : db.sessions.find? (fun t => t.classroom == cid && t.status == "active") with
          | some t => exact hmem
          | none => exact List.mem_append_left _ hmem
    | endSessionOp tok sid now =>
      rw [step]
      unfold endSession
      cases hf : db.sessions.find? (fun t => t.id == sid) with
      | none => exact hmem
      | some t0 =>
        dsimp only
        by_cases hr : (tok.role != "admin") = true
        · rw [if_pos hr]
          exact hmem
        · rw [if_neg hr]
          by_cases he : (t0.status == "ended") = true
          · rw [if_pos he]
            exact hmem
          · rw [if_neg he]
            have hid : t0.id = sid := by
              have := List.find?_some hf
              exact beq_iff_eq.mp this
            have hxne : s ≠ t0 := by
              intro hcon
              apply he
              rw [← hcon, hended]
              decide
            have hfind2 : db.sessions.find? (fun t => t.id == t0.id) = some t0 := by
              rw [hid]
              exact hf
            exact mem_saveSession_of_ne db.sessions _ s t0 hmem hfind2 hxne
  · intro db tok sid now s hf hended hrole
    unfold endSession
    rw [hf]
    simp [hrole, hended]

/-- Witness for C8 at a concrete input: the ended session 20 survives a
start operation on its classroom, and ending it again is rejected. -/
theorem C8_ended_immutable_witness :
    ((⟨20, 1, 100, some 110, "ended", 2⟩ : Session) ∈
      (step (Op.startSessionOp ⟨2, "admin"⟩ 1 200 21)
        ⟨[], [⟨1, "Math", "", "ABC123", 2, [⟨2, "admin"⟩]⟩],
          [⟨20, 1, 100, some 110, "ended", 2⟩], []⟩).sessions) ∧
    (endSession ⟨[], [⟨1, "Math", "", "ABC123", 2, [⟨2, "admin"⟩]⟩],
        [⟨20, 1, 100, some 110, "ended", 2⟩], []⟩ ⟨2, "admin"⟩ 20 300 =
      (⟨[], [⟨1, "Math", "", "ABC123", 2, [⟨2, "admin"⟩]⟩],
        [⟨20, 1, 100, some 110, "ended", 2⟩], []⟩, .err 400 "Session already ended")) :=
  ⟨C8_ended_immutable.1 (Op.startSessionOp ⟨2, "admin"⟩ 1 200 21)
      ⟨[], [⟨1, "Math", "", "ABC123", 2, [⟨2, "admin"⟩]⟩],
        [⟨20, 1, 100, some 110, "ended", 2⟩], []⟩
      ⟨20, 1, 100, some 110, "ended", 2⟩ (by decide) rfl,
   C8_ended_immutable.2 ⟨[], [⟨1, "Math", "", "ABC123", 2, [⟨2, "admin"⟩]⟩],
        [⟨20, 1, 100, some 110, "ended", 2⟩], []⟩ ⟨2, "admin"⟩ 20 300
      ⟨20, 1, 100, some 110, "ended", 2⟩ (by rfl) rfl rfl⟩

/-- The ASCII lowercase table never outputs an ASCII capital. -/
theorem jsCharToLower_not_upper (c : Char) :
    upperChars.contains (jsCharToLower c) = false := by
  unfold jsCharToLower
  cases hf : (upperChars.zip lowerChars).find? (fun p => p.1 == c) with
  | some p =>
    have hmem : p ∈ upperChars.zip lowerChars := List.mem_of_find?_eq_some hf
    exact (by decide : ∀ q ∈ upperChars.zip lowerChars, upperChars.contains q.2 = false) p hmem
  | none =>
    by_contra hcon
    rw [Bool.not_eq_false] at hcon
    have hc : c ∈ upperChars := by simpa using hcon
    have hany := (by decide :
      ∀ a ∈ upperChars, ((upperChars.zip lowerChars).any (fun q => q.1 == a)) = true) c hc
    rw [List.any_eq_true] at hany
    obtain ⟨q, hq, hqc⟩ := hany
    exact (List.find?_eq_none.mp hf q hq) hqc

/-- Lowercasing a string leaves no ASCII capital in it. -/
theorem noAsciiUpper_jsToLowerCase (s : String) :
    noAsciiUpper (jsToLowerCase s) = true := by
  unfold noAsciiUpper jsToLowerCase
  rw [List.all_eq_true]
  intro c hc
  obtain ⟨d, _, rfl⟩ := List.mem_map.mp hc
  rw [jsCharToLower_not_upper]
  rfl

/-- A string containing an ASCII capital never equals a capital-free one. -/
theorem ne_of_hasUpper (s t : String)
    (hs : s.data.any (fun c => upperChars.contains c) = true)
    (ht : noAsciiUpper t = true) : (t == s) = false := by
  rw [beq_eq_false_iff_ne]
  intro hcon
  subst hcon
  rw [List.any_eq_true] at hs
  obtain ⟨c, hc, hcu⟩ := hs
  unfold noAsciiUpper at ht
  rw [List.all_eq_true] at ht
  have h2 := ht c hc
  rw [hcu] at h2
  exact absurd h2 (by decide)

/-- C10: registration trims and lowercases the email before the uniqueness
check and before storing, but login looks the submitted string up verbatim:
when the email contains an ASCII capital and registration succeeds (storing
the lowercased form), logging in with the very string used at registration
fails with 400 "Invalid email or password". -/
theorem C10_register_login_mismatch (db : DB) (email password role : String)
    (studentId : Option String) (ed : Option Nat) (now nid : Nat)
    (hlow : emailsLowercased db)
    (hup : email.data.any (fun c => upperChars.contains c) = true)
    (h1 : (jsTrim email).data.isEmpty = false)
    (h2 : validEmailFormat (jsToLowerCase (jsTrim email)) = true)
    (h3 : ¬ password.length < 6)
    (h4 : (["admin", "student"].contains role) = true)
    (h5 : db.users.find? (fun u => u.email == jsToLowerCase (jsTrim email)) = none) :
    (∃ u, (register db email password role studentId ed now nid).2 = .ok u ∧
      u.email = jsToLowerCase (jsTrim email)) ∧
    login (register db email password role studentId ed now nid).1 email password =
      .err 400 "Invalid email or password" := by
  have husers : ∃ u, (register db email password role studentId ed now nid).2 = .ok u ∧
      u.email = jsToLowerCase (jsTrim email) ∧
      (register db email password role studentId ed now nid).1.users = db.users ++ [u] := by
    unfold register
    rw [h1]
    simp only [Bool.false_eq_true, if_false, h2, Bool.not_true, h5, h4]
    simp only [h3, if_false]
    exact ⟨_, rfl, rfl, rfl⟩
  obtain ⟨u, hok, hmail, husers1⟩ := husers
  refine ⟨⟨u, hok, hmail⟩, ?_⟩
  have hemail_ne : email.data.isEmpty = false := by
    cases hd : email.data with
    | nil =>
      rw [hd] at hup
      exact absurd hup (by decide)
    | cons a l => rfl
  have hpass_ne : password.data.isEmpty = false := by
    cases hd : password.data with
    | nil =>
      exfalso
      apply h3
      have hlen : password.length = 0 := by
        rw [show password.length = password.data.length from rfl, hd]
        rfl
      omega
    | cons a l => rfl
  have hnone : (register db email password role studentId ed now nid).1.users.find?
      (fun v => v.email == email) = none := by
    rw [husers1, List.find?_eq_none]
    intro x hx
    rcases List.mem_append.mp hx with hx1 | hx1
    · intro hcon
      rw [ne_of_hasUpper email x.email hup (hlow x hx1)] at hcon
      exact absurd hcon (by decide)
    · intro hcon
      have hxu : x = u := by simpa using hx1
      subst hxu
      have hnu : noAsciiUpper x.email = true := by
        rw [hmail]
        exact noAsciiUpper_jsToLowerCase (jsTrim email)
      rw [ne_of_hasUpper email x.email hup hnu] at hcon
      exact absurd hcon (by decide)
  unfold login
  rw [hemail_ne, hpass_ne, hnone]
  rfl

/-- Witness for C10 at a concrete input: registering "Alice@x.com" stores
"alice@x.com", and logging in with "Alice@x.com" is rejected. -/
theorem C10_register_login_mismatch_witness :
    (∃ u, (register ⟨[], [], [], []⟩ "Alice@x.com" "secret1" "student" none none 5 1).2 =
        .ok u ∧ u.email = jsToLowerCase (jsTrim "Alice@x.com")) ∧
    login (register ⟨[], [], [], []⟩ "Alice@x.com" "secret1" "student" none none 5 1).1
        "Alice@x.com" "secret1" = .err 400 "Invalid email or password" :=
  C10_register_login_mismatch ⟨[], [], [], []⟩ "Alice@x.com" "secret1" "student" none none 5 1
    (by intro u hu; cases hu) (by decide) (by decide) (by decide) (by decide) (by decide) rfl

end Attendance
